import Mathlib

/-!
Verification of the EVM settlement-chain adapter (`client/src/lib.rs`).

The adapter (`EvmCompatibleChain`) talks to an EVM-compatible chain
through the `ethers` library.  Everything external to the repository —
the RPC provider, wallet derivation from the mnemonic, the `serde_spb`
codec, `convert_transaction_to_execution`, and the treasury contract
itself — is modelled as an explicit environment (`RpcEnv`) of opaque
functions and call results, while the adapter's own control flow
(argument checks, error mapping, the exact payloads submitted on chain)
is translated statement by statement from the source.  A computation
either returns a value (`Outcome.ok`), returns an `eyre::Error`
(`Outcome.err`, tagged with the source's message), or panics on a failed
`unwrap` (`Outcome.panic`); alongside the outcome we record the list of
state-mutating transactions submitted to the chain.
-/

namespace SimperbyEvm

/-- A byte, as in the Rust `u8`. -/
abbrev Byte := Fin 256

/-- Result of running one adapter operation: an `Ok` value, a returned
`eyre::Error` (we keep the source's message string, or a short label for
errors propagated with `?` from the external library), or a Rust panic
from a failed `unwrap`. -/
inductive Outcome (α : Type) where
  | ok : α → Outcome α
  | err : String → Outcome α
  | panic : Outcome α
deriving DecidableEq

/-- A state-mutating transaction submitted to the destination chain. -/
inductive Submission where
  | updateLightClient (header proof : List Byte)
  | executeTx (transaction executionHash : List Byte) (blockHeight : Nat)
      (merkleProof : List Byte)
deriving DecidableEq

/-- Lower-case hex digit, as produced by Rust `hex::encode` (meaningful
for `n < 16`). -/
def hexDigitChar (n : Nat) : Char :=
  if n < 10 then Char.ofNat (48 + n) else Char.ofNat (87 + n)

/-- Character stream of `hex::encode`: two lower-case hex digits per
byte, high nibble first. -/
def hexEncodeChars : List Byte → List Char
  | [] => []
  | b :: bs => hexDigitChar (b.val / 16) :: hexDigitChar (b.val % 16) :: hexEncodeChars bs

/-- Rust `hex::encode`. -/
def hexEncode (bs : List Byte) : String :=
  String.mk (hexEncodeChars bs)

/-- Value of one hex digit, both cases accepted, as in `rustc_hex`. -/
def hexCharVal (c : Char) : Option (Fin 16) :=
  if h : 48 ≤ c.toNat ∧ c.toNat ≤ 57 then some ⟨c.toNat - 48, by omega⟩
  else if h : 97 ≤ c.toNat ∧ c.toNat ≤ 102 then some ⟨c.toNat - 87, by omega⟩
  else if h : 65 ≤ c.toNat ∧ c.toNat ≤ 70 then some ⟨c.toNat - 55, by omega⟩
  else none

/-- Decode a hex string two digits at a time; fails on an odd length or
a non-hex character, as `rustc_hex::FromHexIter` does. -/
def hexPairsToBytes : List Char → Option (List Byte)
  | [] => some []
  | c₁ :: c₂ :: rest =>
    match hexCharVal c₁, hexCharVal c₂, hexPairsToBytes rest with
    | some hi, some lo, some bs =>
      some (⟨hi.val * 16 + lo.val, by have := hi.isLt; have := lo.isLt; omega⟩ :: bs)
    | _, _, _ => none
  | [_] => none

/-- `str::parse::<Address>()` (ethers `H160`, from `fixed-hash`): strip
an optional `0x` prefix, then require exactly 40 hex characters, giving
20 bytes; anything else is an error. -/
def parseAddress (s : String) : Option (List Byte) :=
  let cs := s.data
  let body := if cs.take 2 = ['0', 'x'] then cs.drop 2 else cs
  if body.length = 40 then hexPairsToBytes body else none

/-- `ChainConfigs` from the source. -/
structure ChainConfigs where
  rpc_url : String
  chain_name : Option String

/-- `Treasury` from the source. -/
structure Treasury where
  address : String
  ft_contract_address_list : Option (List (String × String))
  nft_contract_address_list : Option (List (String × String))

/-- `ChainType` from the source: the fixed enumeration of chain
families, each carrying its connection descriptor. -/
inductive ChainType where
  | Ethereum (c : ChainConfigs)
  | Polygon (c : ChainConfigs)
  | BinanceSmartChain (c : ChainConfigs)
  | Arbitrum (c : ChainConfigs)
  | Optimism (c : ChainConfigs)
  | Klaytn (c : ChainConfigs)
  | Fantom (c : ChainConfigs)
  | Avalanche (c : ChainConfigs)
  | Moonbeam (c : ChainConfigs)
  | Moonriver (c : ChainConfigs)
  | Harmony (c : ChainConfigs)
  | Celo (c : ChainConfigs)
  | Other (c : ChainConfigs)

/-- `ChainType::get_chain_name`; the `Other` arm is the source's
`is_some`/`unwrap`/`else` chain. -/
def ChainType.get_chain_name : ChainType → String
  | .Ethereum _ => "Ethereum"
  | .Polygon _ => "Polygon"
  | .BinanceSmartChain _ => "BinanceSmartChain"
  | .Arbitrum _ => "Arbitrum"
  | .Optimism _ => "Optimism"
  | .Klaytn _ => "Klaytn"
  | .Fantom _ => "Fantom"
  | .Avalanche _ => "Avalanche"
  | .Moonbeam _ => "Moonbeam"
  | .Moonriver _ => "Moonriver"
  | .Harmony _ => "Harmony"
  | .Celo _ => "Celo"
  | .Other configs =>
    match configs.chain_name with
    | some name => name
    | none => "Unknown"

/-- `ChainType::get_rpc_url`. -/
def ChainType.get_rpc_url : ChainType → String
  | .Ethereum c | .Polygon c | .BinanceSmartChain c | .Arbitrum c | .Optimism c
  | .Klaytn c | .Fantom c | .Avalanche c | .Moonbeam c | .Moonriver c
  | .Harmony c | .Celo c | .Other c => c.rpc_url

/-- `EvmCompatibleChain` from the source. -/
structure EvmCompatibleChain where
  chain : ChainType
  treasury : Option Treasury

/-- `SettlementChain::get_chain_name` for `EvmCompatibleChain`. -/
def EvmCompatibleChain.get_chain_name (self : EvmCompatibleChain) : String :=
  self.chain.get_chain_name

/-- The constant `ADDRESS_HEX_LEN_WITH_PREFIX` from the source. -/
def ADDRESS_HEX_LEN_WITH_PREFIX : Nat := 42

/-- The adapter's external collaborators and the chain's responses, for
the adapter's configured RPC URL, mnemonic and relayer identity.  The
type parameters are the opaque source-chain types: `Tx` is
`Transaction`, `Exec` is `Execution`, `Hdr` is `BlockHeader`, `Fp` is
`FinalizationProof`, `Mp` is `MerkleProof`. -/
structure RpcEnv (Tx Exec Hdr Fp Mp : Type) where
  /-- Whether `Provider::<Http>::try_from(rpc_url)` succeeds. -/
  providerOk : Bool
  /-- Result of `provider.get_chainid()`; `none` is a transport failure. -/
  chainId : Option Nat
  /-- The `RELAYER_MNEMONIC` value baked in by `dotenv!`. -/
  mnemonic : String
  /-- Result of `MnemonicBuilder::default().phrase(m).build()` followed by
  `wallet.address().to_fixed_bytes()`: the 20-byte wallet address derived
  from the mnemonic.  BIP-39/BIP-32 derivation is deterministic, so this
  is a function of the mnemonic; `none` is a failed build. -/
  walletAddr : String → Option (List Byte)
  /-- The treasury contract's current `contractSequence()` value.  The
  adapter never queries it inside `execute`; the field records the
  on-chain state that the claims speak about. -/
  contractSequence : Nat
  /-- Result of `contract.light_client().call()`: the pair
  `(heightOffset, lastHeader)`; `none` is a transport or contract
  failure. -/
  lightClientCall : Option (Nat × List Byte)
  /-- `bincode::deserialize::<BlockHeader>` applied to the returned
  header bytes; `none` means the bytes do not decode. -/
  decodeHeader : List Byte → Option Hdr
  /-- Result of `IERC20(token).balance_of(owner).call()` for the given
  token contract and owner; `none` is a transport failure. -/
  balanceOf : List Byte → List Byte → Option Nat
  /-- Result of `provider.get_balance(addr, None)`; `none` is a
  transport failure. -/
  getBalance : List Byte → Option Nat
  /-- `serde_spb::to_vec` applied to a `BlockHeader`. -/
  serHeader : Hdr → Option (List Byte)
  /-- `serde_spb::to_vec` applied to a `FinalizationProof`. -/
  serFp : Fp → Option (List Byte)
  /-- `serde_spb::to_vec` applied to a `Transaction`. -/
  serTx : Tx → Option (List Byte)
  /-- `convert_transaction_to_execution` from `simperby_settlement`. -/
  convert : Tx → Option Exec
  /-- `serde_spb::to_vec` applied to an `Execution`. -/
  serExec : Exec → Option (List Byte)
  /-- `serde_spb::to_vec` applied to a `MerkleProof`. -/
  serMp : Mp → Option (List Byte)
  /-- Whether `contract.update_light_client(header, proof).send()` is
  accepted for the given payloads. -/
  sendUpdate : List Byte → List Byte → Bool
  /-- Whether `contract.execute(tx, ex, height, proof).send()` is
  accepted for the given payloads. -/
  sendExecute : List Byte → List Byte → Nat → List Byte → Bool

section Ops

variable {Tx Exec Hdr Fp Mp : Type}

/-- `get_relayer_account_info` (source lines 161-179): `unwrap`s the
first provider, the chain id and the wallet build (a failure there is a
panic); formats the wallet address as `0x` plus lower-case hex;
re-parses it with `Address::from_str(..)?`; builds a second provider and
queries the native balance with `?` (a failure there is a returned
error).  The returned `U256` goes through two panicking conversions:
`as_u128()` panics from 2^128 on, and `Decimal::from(balance)`
(`rust_decimal`'s `From<u128>`, which `unwrap`s
`FromPrimitive::from_u128`) panics from 2^96 on, the 96-bit mantissa
maximum. -/
def get_relayer_account_info (env : RpcEnv Tx Exec Hdr Fp Mp)
    (_self : EvmCompatibleChain) : Outcome (String × Nat) × List Submission :=
  if env.providerOk then
    match env.chainId with
    | none => (Outcome.panic, [])
    | some _chainId =>
      match env.walletAddr env.mnemonic with
      | none => (Outcome.panic, [])
      | some walletBytes =>
        let address := "0x" ++ hexEncode walletBytes
        match parseAddress address with
        | none => (Outcome.err "failed to parse relayer address", [])
        | some relayerAddress =>
          if env.providerOk then
            match env.getBalance relayerAddress with
            | none => (Outcome.err "connection error", [])
            | some balance =>
              if balance < 2 ^ 128 then
                if balance < 2 ^ 96 then (Outcome.ok (address, balance), [])
                else (Outcome.panic, [])
              else (Outcome.panic, [])
          else (Outcome.err "provider error", [])
  else (Outcome.panic, [])

/-- `get_light_client_header` (source lines 181-195): treasury check and
address parse return errors; the provider is built with `?`; the
`light_client()` call and the `bincode` decode are `unwrap`ed, so their
failures are panics. -/
def get_light_client_header (env : RpcEnv Tx Exec Hdr Fp Mp)
    (self : EvmCompatibleChain) : Outcome Hdr × List Submission :=
  match self.treasury with
  | none => (Outcome.err "Treasury is not set", [])
  | some treasury =>
    if env.providerOk then
      match parseAddress treasury.address with
      | none => (Outcome.err "Invalid treasury address", [])
      | some _address =>
        match env.lightClientCall with
        | none => (Outcome.panic, [])
        | some (_heightOffset, lastHeader) =>
          match env.decodeHeader lastHeader with
          | none => (Outcome.panic, [])
          | some header => (Outcome.ok header, [])
    else (Outcome.err "provider error", [])

/-- `get_treasury_fungible_token_balance` (source lines 197-215):
treasury check and the two address parses return errors; the provider
construction and the `balance_of` call are `unwrap`ed, so their failures
are panics.  The returned `U256` goes through `as_u128()` (panics from
2^128 on) and `Decimal::from` (`rust_decimal`'s `From<u128>`, which
`unwrap`s `FromPrimitive::from_u128`; panics from 2^96 on). -/
def get_treasury_fungible_token_balance (env : RpcEnv Tx Exec Hdr Fp Mp)
    (self : EvmCompatibleChain) (tokenAddress : String) :
    Outcome Nat × List Submission :=
  match self.treasury with
  | none => (Outcome.err "Treasury is not set", [])
  | some treasury =>
    match parseAddress treasury.address with
    | none => (Outcome.err "Invalid address", [])
    | some treasuryAddress =>
      match parseAddress tokenAddress with
      | none => (Outcome.err "Invalid address", [])
      | some contractAddress =>
        if env.providerOk then
          match env.balanceOf contractAddress treasuryAddress with
          | none => (Outcome.panic, [])
          | some balance =>
            if balance < 2 ^ 128 then
              if balance < 2 ^ 96 then (Outcome.ok balance, [])
              else (Outcome.panic, [])
            else (Outcome.panic, [])
        else (Outcome.panic, [])

/-- `update_treasury_light_client` (source lines 224-259): the provider,
the chain id and the wallet build are `unwrap`ed; the treasury check,
the address parse, and both serializations return errors; on success a
single `updateLightClient` submission carries the two serialized byte
strings unchanged. -/
def update_treasury_light_client (env : RpcEnv Tx Exec Hdr Fp Mp)
    (self : EvmCompatibleChain) (header : Hdr) (proof : Fp) :
    Outcome Unit × List Submission :=
  if env.providerOk then
    match env.chainId with
    | none => (Outcome.panic, [])
    | some _chainId =>
      match env.walletAddr env.mnemonic with
      | none => (Outcome.panic, [])
      | some _wallet =>
        match self.treasury with
        | none => (Outcome.err "Treasury is not set", [])
        | some treasury =>
          match parseAddress treasury.address with
          | none => (Outcome.err "Invalid address", [])
          | some _contractAddress =>
            match env.serHeader header with
            | none => (Outcome.err "Failed to serialize block header", [])
            | some headerBytes =>
              match env.serFp proof with
              | none => (Outcome.err "Failed to serialize finalization proof", [])
              | some proofBytes =>
                if env.sendUpdate headerBytes proofBytes then
                  (Outcome.ok (), [Submission.updateLightClient headerBytes proofBytes])
                else (Outcome.err "Failed to update light client", [])
  else (Outcome.panic, [])

/-- `execute` (source lines 261-308): the provider, the chain id and the
wallet build are `unwrap`ed; the treasury check, the address parse, the
three serializations and the execution conversion return errors; on
success a single `executeTx` submission carries the serialized
transaction, the serialized execution descriptor, the block height and
the serialized Merkle proof.  Note that the contract sequence is never
read. -/
def execute (env : RpcEnv Tx Exec Hdr Fp Mp) (self : EvmCompatibleChain)
    (tx : Tx) (blockHeight : Nat) (mp : Mp) : Outcome Unit × List Submission :=
  if env.providerOk then
    match env.chainId with
    | none => (Outcome.panic, [])
    | some _chainId =>
      match env.walletAddr env.mnemonic with
      | none => (Outcome.panic, [])
      | some _wallet =>
        match self.treasury with
        | none => (Outcome.err "Treasury is not set", [])
        | some treasury =>
          match parseAddress treasury.address with
          | none => (Outcome.err "Invalid address", [])
          | some _contractAddress =>
            match env.serTx tx with
            | none => (Outcome.err "Failed to serialize transaction", [])
            | some txBytes =>
              match env.convert tx with
              | none => (Outcome.err "Failed to convert transaction to execution", [])
              | some ex =>
                match env.serExec ex with
                | none => (Outcome.err "Failed to serialize execution", [])
                | some exBytes =>
                  match env.serMp mp with
                  | none => (Outcome.err "Failed to serialize merkle proof", [])
                  | some mpBytes =>
                    if env.sendExecute txBytes exBytes blockHeight mpBytes then
                      (Outcome.ok (),
                        [Submission.executeTx txBytes exBytes blockHeight mpBytes])
                    else (Outcome.err "Failed to execute", [])
  else (Outcome.panic, [])

end Ops

/-- A concrete stand-in for the opaque `Transaction` type, carrying the
`contract_sequence` recorded in the transaction body (visible in the
source's test fixtures), used to exercise the model on closed inputs. -/
structure DemoTx where
  contract_sequence : Nat
deriving DecidableEq

/-- A concrete 20-byte wallet address used in closed instances. -/
def demoWallet : List Byte := List.replicate 20 0

/-- A fully successful environment at concrete instantiations of the
opaque types, used to exercise the model on closed inputs. -/
def demoEnv : RpcEnv DemoTx Nat Nat Nat Nat where
  providerOk := true
  chainId := some 5
  mnemonic := "demo mnemonic"
  walletAddr := fun _ => some demoWallet
  contractSequence := 5
  lightClientCall := some (0, [7])
  decodeHeader := fun _ => some 7
  balanceOf := fun _ _ => some 100
  getBalance := fun _ => some 100
  serHeader := fun _ => some [1]
  serFp := fun _ => some [2]
  serTx := fun _ => some [3]
  convert := fun _ => some 9
  serExec := fun _ => some [4]
  serMp := fun _ => some [5]
  sendUpdate := fun _ _ => true
  sendExecute := fun _ _ _ _ => true

/-- A treasury with a well-formed contract address. -/
def demoTreasury : Treasury where
  address := "0x1111111111111111111111111111111111111111"
  ft_contract_address_list := none
  nft_contract_address_list := none

/-- An adapter with the treasury configured. -/
def demoChain : EvmCompatibleChain where
  chain := ChainType.Other { rpc_url := "http://localhost:8545", chain_name := some "Local" }
  treasury := some demoTreasury

/-- An adapter with no treasury configured. -/
def demoChainNoTreasury : EvmCompatibleChain where
  chain := ChainType.Other { rpc_url := "http://localhost:8545", chain_name := some "Local" }
  treasury := none

/-- An adapter whose treasury address is not valid hex. -/
def demoChainBadAddress : EvmCompatibleChain where
  chain := ChainType.Other { rpc_url := "http://localhost:8545", chain_name := some "Local" }
  treasury := some { address := "not-an-address", ft_contract_address_list := none,
                     nft_contract_address_list := none }

/-- Environment whose `lightClient()` call returns bytes that do not
decode to a `BlockHeader`. -/
def demoEnvBadDecode : RpcEnv DemoTx Nat Nat Nat Nat :=
  { demoEnv with lightClientCall := some (0, [9]), decodeHeader := fun _ => none }

/-- Environment whose `lightClient()` call fails at the transport. -/
def demoEnvCallFail : RpcEnv DemoTx Nat Nat Nat Nat :=
  { demoEnv with lightClientCall := none }

/-- Environment whose `balance_of` call fails at the transport. -/
def demoEnvBalanceOfFail : RpcEnv DemoTx Nat Nat Nat Nat :=
  { demoEnv with balanceOf := fun _ _ => none }

/-- Environment with an unreachable RPC endpoint: the chain-id query
fails. -/
def demoEnvNoChainId : RpcEnv DemoTx Nat Nat Nat Nat :=
  { demoEnv with chainId := none }

/-- Environment whose native-balance query fails at the transport. -/
def demoEnvBalanceFail : RpcEnv DemoTx Nat Nat Nat Nat :=
  { demoEnv with getBalance := fun _ => none }

/-- Environment where serializing the block header fails. -/
def demoEnvSerHeaderFail : RpcEnv DemoTx Nat Nat Nat Nat :=
  { demoEnv with serHeader := fun _ => none }

/-- Environment where serializing the finalization proof fails. -/
def demoEnvSerFpFail : RpcEnv DemoTx Nat Nat Nat Nat :=
  { demoEnv with serFp := fun _ => none }

/-- A second successful environment sharing the mnemonic and the wallet
derivation with `demoEnv` but differing in chain id and balance. -/
def demoEnv2 : RpcEnv DemoTx Nat Nat Nat Nat :=
  { demoEnv with chainId := some 6, getBalance := fun _ => some 200 }

/-- The 20 bytes of `demoTreasury`'s address (`0x11` repeated). -/
def demoTreasuryBytes : List Byte := List.replicate 20 17

/-! Helper lemmas about the hex codec. -/

theorem hexCharVal_hexDigitChar :
    ∀ n : Fin 16, hexCharVal (hexDigitChar n.val) = some n := by decide

theorem hexCharVal_hexDigitChar_nat (n : Nat) (h : n < 16) :
    hexCharVal (hexDigitChar n) = some ⟨n, h⟩ :=
  hexCharVal_hexDigitChar ⟨n, h⟩

theorem hexPairsToBytes_hexEncodeChars (bs : List Byte) :
    hexPairsToBytes (hexEncodeChars bs) = some bs := by
  induction bs with
  | nil => rfl
  | cons b bs ih =>
    have h1 : b.val / 16 < 16 := by have := b.isLt; omega
    have h2 : b.val % 16 < 16 := Nat.mod_lt _ (by omega)
    have e : (⟨b.val / 16 * 16 + b.val % 16, by omega⟩ : Byte) = b :=
      Fin.ext (show b.val / 16 * 16 + b.val % 16 = b.val by
        have := Nat.div_add_mod b.val 16; omega)
    simp only [hexEncodeChars, hexPairsToBytes,
      hexCharVal_hexDigitChar_nat _ h1, hexCharVal_hexDigitChar_nat _ h2, ih]
    exact congrArg (fun x => some (x :: bs)) e

theorem length_hexEncodeChars (bs : List Byte) :
    (hexEncodeChars bs).length = 2 * bs.length := by
  induction bs with
  | nil => rfl
  | cons b bs ih =>
    simp only [hexEncodeChars, List.length_cons, ih]
    omega

theorem data_0x_hexEncode (bs : List Byte) :
    ("0x" ++ hexEncode bs).data = '0' :: 'x' :: hexEncodeChars bs := rfl

theorem parseAddress_0x_hexEncode (bs : List Byte) (h : bs.length = 20) :
    parseAddress ("0x" ++ hexEncode bs) = some bs := by
  have hlen : (hexEncodeChars bs).length = 40 := by rw [length_hexEncodeChars, h]
  have hdata : (hexEncode bs).data = hexEncodeChars bs := rfl
  have hslen : (hexEncode bs).length = 40 := hlen
  simp [parseAddress, data_0x_hexEncode, hdata, hslen, hlen, hexPairsToBytes_hexEncodeChars]

theorem length_0x_hexEncode (bs : List Byte) (h : bs.length = 20) :
    ("0x" ++ hexEncode bs).length = 42 := by
  have : ("0x" ++ hexEncode bs).length = ("0x" ++ hexEncode bs).data.length := rfl
  rw [this, data_0x_hexEncode]
  simp [length_hexEncodeChars, h]

/-! The claims. -/

/-- Claim C9: `get_chain_name` resolves the display name from the fixed
enumeration of chain families: every statically-known family returns its
fixed name, and for the `Other` family it returns the configured
`chain_name` when present and `"Unknown"` when absent. -/
theorem claim_C9 (cfg : ChainConfigs) (t : Option Treasury) :
    (EvmCompatibleChain.mk (ChainType.Ethereum cfg) t).get_chain_name = "Ethereum" ∧
    (EvmCompatibleChain.mk (ChainType.Polygon cfg) t).get_chain_name = "Polygon" ∧
    (EvmCompatibleChain.mk (ChainType.BinanceSmartChain cfg) t).get_chain_name
      = "BinanceSmartChain" ∧
    (EvmCompatibleChain.mk (ChainType.Arbitrum cfg) t).get_chain_name = "Arbitrum" ∧
    (EvmCompatibleChain.mk (ChainType.Optimism cfg) t).get_chain_name = "Optimism" ∧
    (EvmCompatibleChain.mk (ChainType.Klaytn cfg) t).get_chain_name = "Klaytn" ∧
    (EvmCompatibleChain.mk (ChainType.Fantom cfg) t).get_chain_name = "Fantom" ∧
    (EvmCompatibleChain.mk (ChainType.Avalanche cfg) t).get_chain_name = "Avalanche" ∧
    (EvmCompatibleChain.mk (ChainType.Moonbeam cfg) t).get_chain_name = "Moonbeam" ∧
    (EvmCompatibleChain.mk (ChainType.Moonriver cfg) t).get_chain_name = "Moonriver" ∧
    (EvmCompatibleChain.mk (ChainType.Harmony cfg) t).get_chain_name = "Harmony" ∧
    (EvmCompatibleChain.mk (ChainType.Celo cfg) t).get_chain_name = "Celo" ∧
    (EvmCompatibleChain.mk (ChainType.Other cfg) t).get_chain_name
      = cfg.chain_name.getD "Unknown" := by
  refine ⟨rfl, rfl, rfl, rfl, rfl, rfl, rfl, rfl, rfl, rfl, rfl, rfl, ?_⟩
  rcases cfg with ⟨url, name⟩
  cases name <;> rfl

/-- Claim C10: with no treasury configured, each treasury-dependent
operation returns the error `Treasury is not set` and submits no
transaction.  For `update_treasury_light_client` and `execute` this is
stated under the hypotheses that the provider, chain-id and wallet steps
— which the source runs first and `unwrap`s — succeed. -/
theorem claim_C10 {Tx Exec Hdr Fp Mp : Type} (env : RpcEnv Tx Exec Hdr Fp Mp)
    (self : EvmCompatibleChain) (tokenAddress : String) (header : Hdr)
    (proof : Fp) (tx : Tx) (height : Nat) (mp : Mp) (c : Nat) (w : List Byte)
    (hT : self.treasury = none)
    (hP : env.providerOk = true)
    (hC : env.chainId = some c)
    (hW : env.walletAddr env.mnemonic = some w) :
    get_light_client_header env self = (Outcome.err "Treasury is not set", []) ∧
    get_treasury_fungible_token_balance env self tokenAddress
      = (Outcome.err "Treasury is not set", []) ∧
    update_treasury_light_client env self header proof
      = (Outcome.err "Treasury is not set", []) ∧
    execute env self tx height mp = (Outcome.err "Treasury is not set", []) := by
  refine ⟨?_, ?_, ?_, ?_⟩ <;>
    simp [get_light_client_header, get_treasury_fungible_token_balance,
      update_treasury_light_client, execute, hT, hP, hC, hW]

/-- Witness for C10 at a concrete adapter with no treasury. -/
theorem claim_C10_witness :
    demoChainNoTreasury.treasury = none ∧
    demoEnv.providerOk = true ∧
    demoEnv.chainId = some 5 ∧
    demoEnv.walletAddr demoEnv.mnemonic = some demoWallet ∧
    (get_light_client_header demoEnv demoChainNoTreasury
       = (Outcome.err "Treasury is not set", []) ∧
     get_treasury_fungible_token_balance demoEnv demoChainNoTreasury "0x11"
       = (Outcome.err "Treasury is not set", []) ∧
     update_treasury_light_client demoEnv demoChainNoTreasury 0 0
       = (Outcome.err "Treasury is not set", []) ∧
     execute demoEnv demoChainNoTreasury ⟨0⟩ 1 0
       = (Outcome.err "Treasury is not set", [])) :=
  ⟨rfl, rfl, rfl, rfl,
    claim_C10 demoEnv demoChainNoTreasury "0x11" 0 0 ⟨0⟩ 1 0 5 demoWallet
      rfl rfl rfl rfl⟩

/-- Claim C2: on the all-success path, `execute` submits exactly one
transaction carrying the serialized message, the serialized execution
descriptor derived from the message by
`convert_transaction_to_execution`, the given block height unchanged and
the serialized Merkle proof, and returns `Ok(())` without any further
query of the resulting chain state. -/
theorem claim_C2 {Tx Exec Hdr Fp Mp : Type} (env : RpcEnv Tx Exec Hdr Fp Mp)
    (self : EvmCompatibleChain) (t : Treasury)
    (ta txBytes exBytes mpBytes : List Byte) (ex : Exec) (tx : Tx)
    (height : Nat) (mp : Mp) (c : Nat) (w : List Byte)
    (hP : env.providerOk = true) (hC : env.chainId = some c)
    (hW : env.walletAddr env.mnemonic = some w)
    (hT : self.treasury = some t) (hA : parseAddress t.address = some ta)
    (hS1 : env.serTx tx = some txBytes)
    (hCv : env.convert tx = some ex)
    (hS2 : env.serExec ex = some exBytes)
    (hS3 : env.serMp mp = some mpBytes)
    (hSend : env.sendExecute txBytes exBytes height mpBytes = true) :
    execute env self tx height mp
      = (Outcome.ok (), [Submission.executeTx txBytes exBytes height mpBytes]) := by
  simp [execute, hP, hC, hW, hT, hA, hS1, hCv, hS2, hS3, hSend]

/-- Witness for C2 at a concrete all-success environment. -/
theorem claim_C2_witness :
    demoEnv.serTx ⟨0⟩ = some [3] ∧ demoEnv.convert ⟨0⟩ = some 9 ∧
    demoEnv.serExec 9 = some [4] ∧ demoEnv.serMp 0 = some [5] ∧
    execute demoEnv demoChain ⟨0⟩ 3 0
      = (Outcome.ok (), [Submission.executeTx [3] [4] 3 [5]]) :=
  ⟨rfl, rfl, rfl, rfl,
    claim_C2 demoEnv demoChain demoTreasury demoTreasuryBytes [3] [4] [5] 9 ⟨0⟩ 3 0
      5 demoWallet rfl rfl rfl rfl (by decide) rfl rfl rfl rfl rfl⟩

/-- Counterexample to C1 as stated: a concrete transaction whose
`contract_sequence` (0) differs from the treasury contract's current
sequence (5), on which `execute` neither fails locally with a sequence
error nor withholds the submission — it submits and returns `Ok`. -/
theorem claim_C1_counterexample :
    (DemoTx.mk 0).contract_sequence ≠ demoEnv.contractSequence ∧
    execute demoEnv demoChain (DemoTx.mk 0) 1 0
      = (Outcome.ok (), [Submission.executeTx [3] [4] 1 [5]]) := by
  exact ⟨by decide, by decide⟩

/-- Claim C1 as amended: `execute` performs no local contract-sequence
check.  Its result is independent of the treasury contract's current
sequence, and whenever serialization, conversion and submission succeed
it submits the message and returns `Ok` — even for a message whose
`contract_sequence` is stale; a stale sequence is only rejected
on-chain. -/
theorem claim_C1 {Tx Exec Hdr Fp Mp : Type} (env : RpcEnv Tx Exec Hdr Fp Mp)
    (self : EvmCompatibleChain) (t : Treasury)
    (ta txBytes exBytes mpBytes : List Byte) (ex : Exec) (tx : Tx)
    (height : Nat) (mp : Mp) (c : Nat) (w : List Byte) (s₁ s₂ : Nat)
    (hP : env.providerOk = true) (hC : env.chainId = some c)
    (hW : env.walletAddr env.mnemonic = some w)
    (hT : self.treasury = some t) (hA : parseAddress t.address = some ta)
    (hS1 : env.serTx tx = some txBytes)
    (hCv : env.convert tx = some ex)
    (hS2 : env.serExec ex = some exBytes)
    (hS3 : env.serMp mp = some mpBytes)
    (hSend : env.sendExecute txBytes exBytes height mpBytes = true) :
    execute { env with contractSequence := s₁ } self tx height mp
      = execute { env with contractSequence := s₂ } self tx height mp ∧
    execute env self tx height mp
      = (Outcome.ok (), [Submission.executeTx txBytes exBytes height mpBytes]) := by
  constructor
  · rfl
  · simp [execute, hP, hC, hW, hT, hA, hS1, hCv, hS2, hS3, hSend]

/-- Witness for the amended C1 at a concrete environment. -/
theorem claim_C1_witness :
    execute { demoEnv with contractSequence := 0 } demoChain ⟨0⟩ 1 0
      = execute { demoEnv with contractSequence := 99 } demoChain ⟨0⟩ 1 0 ∧
    execute demoEnv demoChain ⟨0⟩ 1 0
      = (Outcome.ok (), [Submission.executeTx [3] [4] 1 [5]]) :=
  claim_C1 demoEnv demoChain demoTreasury demoTreasuryBytes [3] [4] [5] 9 ⟨0⟩ 1 0
    5 demoWallet 0 99 rfl rfl rfl rfl (by decide) rfl rfl rfl rfl rfl

/-- Claim C3: `update_treasury_light_client` serializes the header and
the finalization proof with the destination codec and passes both byte
strings through unchanged in a single `updateLightClient` submission; if
serializing either one fails it returns an error and no transaction is
submitted. -/
theorem claim_C3 {Tx Exec Hdr Fp Mp : Type} (env : RpcEnv Tx Exec Hdr Fp Mp)
    (self : EvmCompatibleChain) (t : Treasury) (ta : List Byte)
    (header : Hdr) (proof : Fp) (c : Nat) (w : List Byte)
    (hP : env.providerOk = true) (hC : env.chainId = some c)
    (hW : env.walletAddr env.mnemonic = some w)
    (hT : self.treasury = some t) (hA : parseAddress t.address = some ta) :
    (∀ hb pb, env.serHeader header = some hb → env.serFp proof = some pb →
      env.sendUpdate hb pb = true →
      update_treasury_light_client env self header proof
        = (Outcome.ok (), [Submission.updateLightClient hb pb])) ∧
    (env.serHeader header = none →
      update_treasury_light_client env self header proof
        = (Outcome.err "Failed to serialize block header", [])) ∧
    (∀ hb, env.serHeader header = some hb → env.serFp proof = none →
      update_treasury_light_client env self header proof
        = (Outcome.err "Failed to serialize finalization proof", [])) := by
  refine ⟨?_, ?_, ?_⟩
  · intro hb pb h1 h2 h3
    simp [update_treasury_light_client, hP, hC, hW, hT, hA, h1, h2, h3]
  · intro h1
    simp [update_treasury_light_client, hP, hC, hW, hT, hA, h1]
  · intro hb h1 h2
    simp [update_treasury_light_client, hP, hC, hW, hT, hA, h1, h2]

/-- Witness for C3: the three branches at concrete environments. -/
theorem claim_C3_witness :
    update_treasury_light_client demoEnv demoChain 0 0
      = (Outcome.ok (), [Submission.updateLightClient [1] [2]]) ∧
    update_treasury_light_client demoEnvSerHeaderFail demoChain 0 0
      = (Outcome.err "Failed to serialize block header", []) ∧
    update_treasury_light_client demoEnvSerFpFail demoChain 0 0
      = (Outcome.err "Failed to serialize finalization proof", []) :=
  ⟨(claim_C3 demoEnv demoChain demoTreasury demoTreasuryBytes 0 0 5 demoWallet
      rfl rfl rfl rfl (by decide)).1 [1] [2] rfl rfl rfl,
   (claim_C3 demoEnvSerHeaderFail demoChain demoTreasury demoTreasuryBytes 0 0 5
      demoWallet rfl rfl rfl rfl (by decide)).2.1 rfl,
   (claim_C3 demoEnvSerFpFail demoChain demoTreasury demoTreasuryBytes 0 0 5
      demoWallet rfl rfl rfl rfl (by decide)).2.2 [1] rfl rfl⟩

/-- Counterexample to C4 as stated: the `lightClient()` query returns
bytes that do not decode to a header, and `get_light_client_header`
panics (on the source's `unwrap` of `bincode::deserialize`) instead of
returning an `InternalContractError` value. -/
theorem claim_C4_counterexample :
    demoEnvBadDecode.lightClientCall = some (0, [9]) ∧
    demoEnvBadDecode.decodeHeader [9] = none ∧
    get_light_client_header demoEnvBadDecode demoChain = (Outcome.panic, []) :=
  ⟨rfl, rfl, by decide⟩

/-- Claim C4 as amended: for every byte string returned by the treasury
contract's `lightClient` query that does not decode to a valid header,
`get_light_client_header` panics (the decode is `unwrap`ed) rather than
returning an error value. -/
theorem claim_C4 {Tx Exec Hdr Fp Mp : Type} (env : RpcEnv Tx Exec Hdr Fp Mp)
    (self : EvmCompatibleChain) (t : Treasury) (ta : List Byte)
    (off : Nat) (bytes : List Byte)
    (hT : self.treasury = some t) (hP : env.providerOk = true)
    (hA : parseAddress t.address = some ta)
    (hCall : env.lightClientCall = some (off, bytes))
    (hDec : env.decodeHeader bytes = none) :
    get_light_client_header env self = (Outcome.panic, []) := by
  simp [get_light_client_header, hT, hP, hA, hCall, hDec]

/-- Witness for the amended C4 at a concrete environment. -/
theorem claim_C4_witness :
    demoEnvBadDecode.decodeHeader [9] = none ∧
    get_light_client_header demoEnvBadDecode demoChain = (Outcome.panic, []) :=
  ⟨rfl, claim_C4 demoEnvBadDecode demoChain demoTreasury demoTreasuryBytes 0 [9]
    rfl rfl (by decide) rfl rfl⟩

/-- Counterexample to C5 as stated: a transport failure during the
`lightClient()` RPC call makes `get_light_client_header` panic (the call
result is `unwrap`ed) instead of surfacing a returned `ConnectionError`. -/
theorem claim_C5_counterexample :
    demoEnvCallFail.lightClientCall = none ∧
    get_light_client_header demoEnvCallFail demoChain = (Outcome.panic, []) :=
  ⟨rfl, by decide⟩

/-- Claim C5 as amended: failures of the read-only treasury operations
detected before the RPC call (treasury unset, malformed address) surface
as returned errors, and the reads never submit transactions; but a
transport failure during the contract call itself — and, for the header
read, a decode failure — causes a panic rather than a returned error. -/
theorem claim_C5 {Tx Exec Hdr Fp Mp : Type} (env : RpcEnv Tx Exec Hdr Fp Mp)
    (self : EvmCompatibleChain) (tokenAddress : String) (t : Treasury)
    (ta ca : List Byte) :
    (self.treasury = none →
      get_light_client_header env self = (Outcome.err "Treasury is not set", []) ∧
      get_treasury_fungible_token_balance env self tokenAddress
        = (Outcome.err "Treasury is not set", [])) ∧
    (self.treasury = some t → env.providerOk = true →
      parseAddress t.address = none →
      get_light_client_header env self = (Outcome.err "Invalid treasury address", [])) ∧
    (self.treasury = some t → parseAddress t.address = none →
      get_treasury_fungible_token_balance env self tokenAddress
        = (Outcome.err "Invalid address", [])) ∧
    (self.treasury = some t → env.providerOk = true →
      parseAddress t.address = some ta → env.lightClientCall = none →
      get_light_client_header env self = (Outcome.panic, [])) ∧
    (self.treasury = some t → parseAddress t.address = some ta →
      parseAddress tokenAddress = some ca → env.providerOk = true →
      env.balanceOf ca ta = none →
      get_treasury_fungible_token_balance env self tokenAddress
        = (Outcome.panic, [])) := by
  refine ⟨?_, ?_, ?_, ?_, ?_⟩
  · intro hT
    exact ⟨by simp [get_light_client_header, hT],
      by simp [get_treasury_fungible_token_balance, hT]⟩
  · intro hT hP hA
    simp [get_light_client_header, hT, hP, hA]
  · intro hT hA
    simp [get_treasury_fungible_token_balance, hT, hA]
  · intro hT hP hA hCall
    simp [get_light_client_header, hT, hP, hA, hCall]
  · intro hT hA hCa hP hB
    simp [get_treasury_fungible_token_balance, hT, hA, hCa, hP, hB]

/-- Witness for the amended C5: a pre-RPC failure surfacing as a
returned error and a transport failure surfacing as a panic, at concrete
environments. -/
theorem claim_C5_witness :
    get_treasury_fungible_token_balance demoEnv demoChainNoTreasury "0x11"
      = (Outcome.err "Treasury is not set", []) ∧
    get_treasury_fungible_token_balance demoEnvBalanceOfFail demoChain
      demoTreasury.address = (Outcome.panic, []) :=
  ⟨((claim_C5 demoEnv demoChainNoTreasury "0x11" demoTreasury demoTreasuryBytes
      demoTreasuryBytes).1 rfl).2,
   (claim_C5 demoEnvBalanceOfFail demoChain demoTreasury.address demoTreasury
      demoTreasuryBytes demoTreasuryBytes).2.2.2.2 rfl (by decide) (by decide)
      rfl rfl⟩

/-- Counterexample to C6 as stated: with an unreachable RPC endpoint the
chain-id query fails and `get_relayer_account_info` panics (the source
`unwrap`s `get_chainid()`) before ever reaching the balance query. -/
theorem claim_C6_counterexample :
    demoEnvNoChainId.chainId = none ∧
    get_relayer_account_info demoEnvNoChainId demoChain = (Outcome.panic, []) :=
  ⟨rfl, by decide⟩

/-- Claim C6 as amended: a transport failure during the balance query
itself (the chain-id query and wallet derivation having succeeded)
surfaces as a returned error; but an unreachable RPC endpoint makes the
chain-id query panic, so `get_relayer_account_info` can panic before the
balance query. -/
theorem claim_C6 {Tx Exec Hdr Fp Mp : Type} (env : RpcEnv Tx Exec Hdr Fp Mp)
    (self : EvmCompatibleChain) (c : Nat) (w : List Byte) :
    (env.providerOk = true → env.chainId = none →
      get_relayer_account_info env self = (Outcome.panic, [])) ∧
    (env.providerOk = true → env.chainId = some c →
      env.walletAddr env.mnemonic = some w → w.length = 20 →
      env.getBalance w = none →
      get_relayer_account_info env self = (Outcome.err "connection error", [])) := by
  constructor
  · intro hP hC
    simp [get_relayer_account_info, hP, hC]
  · intro hP hC hW hw20 hB
    simp [get_relayer_account_info, hP, hC, hW,
      parseAddress_0x_hexEncode w hw20, hB]

/-- Witness for the amended C6: both branches at concrete environments. -/
theorem claim_C6_witness :
    get_relayer_account_info demoEnvNoChainId demoChainNoTreasury
      = (Outcome.panic, []) ∧
    get_relayer_account_info demoEnvBalanceFail demoChainNoTreasury
      = (Outcome.err "connection error", []) :=
  ⟨(claim_C6 demoEnvNoChainId demoChainNoTreasury 5 demoWallet).1 rfl rfl,
   (claim_C6 demoEnvBalanceFail demoChainNoTreasury 5 demoWallet).2 rfl rfl rfl
     (by decide) rfl⟩

/-- Claim C7: for every malformed address string (not 40 hex characters
after the optional `0x` prefix), each adapter operation that parses it —
the treasury address in all four treasury operations and the token
contract address in the balance query — fails with the source's
invalid-address error before any submission, and does not panic. -/
theorem claim_C7 {Tx Exec Hdr Fp Mp : Type} (env : RpcEnv Tx Exec Hdr Fp Mp)
    (self : EvmCompatibleChain) (t : Treasury) (tokenAddress : String)
    (header : Hdr) (proof : Fp) (tx : Tx) (height : Nat) (mp : Mp)
    (c : Nat) (w ta : List Byte)
    (hT : self.treasury = some t) :
    (env.providerOk = true → parseAddress t.address = none →
      get_light_client_header env self
        = (Outcome.err "Invalid treasury address", [])) ∧
    (parseAddress t.address = none →
      get_treasury_fungible_token_balance env self tokenAddress
        = (Outcome.err "Invalid address", [])) ∧
    (env.providerOk = true → env.chainId = some c →
      env.walletAddr env.mnemonic = some w → parseAddress t.address = none →
      update_treasury_light_client env self header proof
        = (Outcome.err "Invalid address", []) ∧
      execute env self tx height mp = (Outcome.err "Invalid address", [])) ∧
    (parseAddress t.address = some ta → parseAddress tokenAddress = none →
      get_treasury_fungible_token_balance env self tokenAddress
        = (Outcome.err "Invalid address", [])) := by
  refine ⟨?_, ?_, ?_, ?_⟩
  · intro hP hA
    simp [get_light_client_header, hT, hP, hA]
  · intro hA
    simp [get_treasury_fungible_token_balance, hT, hA]
  · intro hP hC hW hA
    exact ⟨by simp [update_treasury_light_client, hP, hC, hW, hT, hA],
      by simp [execute, hP, hC, hW, hT, hA]⟩
  · intro hA hCa
    simp [get_treasury_fungible_token_balance, hT, hA, hCa]

/-- Witness for C7: a malformed treasury address and a malformed token
address at concrete inputs. -/
theorem claim_C7_witness :
    parseAddress "not-an-address" = none ∧
    get_treasury_fungible_token_balance demoEnv demoChainBadAddress "0x11"
      = (Outcome.err "Invalid address", []) ∧
    execute demoEnv demoChainBadAddress ⟨0⟩ 1 0
      = (Outcome.err "Invalid address", []) ∧
    get_treasury_fungible_token_balance demoEnv demoChain "zz"
      = (Outcome.err "Invalid address", []) :=
  ⟨by decide,
   (claim_C7 demoEnv demoChainBadAddress
      { address := "not-an-address", ft_contract_address_list := none,
        nft_contract_address_list := none } "0x11" 0 0 ⟨0⟩ 1 0 5 demoWallet
      demoTreasuryBytes rfl).2.1 (by decide),
   ((claim_C7 demoEnv demoChainBadAddress
      { address := "not-an-address", ft_contract_address_list := none,
        nft_contract_address_list := none } "0x11" 0 0 ⟨0⟩ 1 0 5 demoWallet
      demoTreasuryBytes rfl).2.2.1 rfl rfl rfl (by decide)).2,
   (claim_C7 demoEnv demoChain demoTreasury "zz" 0 0 ⟨0⟩ 1 0 5 demoWallet
      demoTreasuryBytes rfl).2.2.2 (by decide) (by decide)⟩

/-- Claim C8: the relayer address is a pure function of the configured
mnemonic and chain id.  Two successful invocations of
`get_relayer_account_info` against environments sharing the mnemonic and
the wallet-derivation function return the same address string, which is
the `0x`-prefixed lower-case hex encoding of the derived wallet's
20-byte address — exactly `ADDRESS_HEX_LEN_WITH_PREFIX` (42)
characters. -/
theorem claim_C8 {Tx Exec Hdr Fp Mp : Type} (env₁ env₂ : RpcEnv Tx Exec Hdr Fp Mp)
    (self₁ self₂ : EvmCompatibleChain) (w : List Byte) (c₁ c₂ b₁ b₂ : Nat)
    (hw20 : w.length = 20)
    (hM : env₂.mnemonic = env₁.mnemonic)
    (hF : env₂.walletAddr = env₁.walletAddr)
    (hP₁ : env₁.providerOk = true) (hP₂ : env₂.providerOk = true)
    (hC₁ : env₁.chainId = some c₁) (hC₂ : env₂.chainId = some c₂)
    (hA : env₁.walletAddr env₁.mnemonic = some w)
    (hB₁ : env₁.getBalance w = some b₁) (hB₂ : env₂.getBalance w = some b₂)
    (hb₁ : b₁ < 2 ^ 96) (hb₂ : b₂ < 2 ^ 96) :
    get_relayer_account_info env₁ self₁
      = (Outcome.ok ("0x" ++ hexEncode w, b₁), []) ∧
    get_relayer_account_info env₂ self₂
      = (Outcome.ok ("0x" ++ hexEncode w, b₂), []) ∧
    ("0x" ++ hexEncode w).length = ADDRESS_HEX_LEN_WITH_PREFIX := by
  have hA₂ : env₂.walletAddr env₂.mnemonic = some w := by rw [hM, hF]; exact hA
  have hb₁' : b₁ < 2 ^ 128 := lt_of_lt_of_le hb₁ (by norm_num)
  have hb₂' : b₂ < 2 ^ 128 := lt_of_lt_of_le hb₂ (by norm_num)
  refine ⟨?_, ?_, ?_⟩
  · simp only [get_relayer_account_info, hP₁, hC₁, hA,
      parseAddress_0x_hexEncode w hw20, hB₁]
    rw [if_pos hb₁', if_pos hb₁]
    simp
  · simp only [get_relayer_account_info, hP₂, hC₂, hA₂,
      parseAddress_0x_hexEncode w hw20, hB₂]
    rw [if_pos hb₂', if_pos hb₂]
    simp
  · exact length_0x_hexEncode w hw20

/-- Witness for C8: two concrete environments sharing mnemonic and
derivation but differing in chain id and balance yield the same 42-char
address. -/
theorem claim_C8_witness :
    get_relayer_account_info demoEnv demoChain
      = (Outcome.ok ("0x" ++ hexEncode demoWallet, 100), []) ∧
    get_relayer_account_info demoEnv2 demoChainNoTreasury
      = (Outcome.ok ("0x" ++ hexEncode demoWallet, 200), []) ∧
    ("0x" ++ hexEncode demoWallet).length = ADDRESS_HEX_LEN_WITH_PREFIX :=
  claim_C8 demoEnv demoEnv2 demoChain demoChainNoTreasury demoWallet 5 6 100 200
    (by decide) rfl rfl rfl rfl rfl rfl rfl rfl rfl (by decide) (by decide)

end SimperbyEvm
